import Mathlib

/-!
Shallow embedding of the hotel-booking availability / booking / cancellation
logic of the repository (backend routes for rooms and bookings, plus the
booking-validation middleware).

Dates are modelled as integer timestamps in milliseconds (the JavaScript
Date value); prices as integers (whole decimal units, exact for the only
arithmetic performed on them, price times nights); the booking store and
the room table as lists.  Each HTTP handler becomes a pure function returning
`Except ApiError result`, with the checks performed in the same order as in
the source.
-/

namespace HotelBooking

/-- Booking.status enumeration from the Prisma schema / routes. -/
inductive BookingStatus
  | PENDING
  | CONFIRMED
  | CANCELLED
  | COMPLETED
deriving DecidableEq, Repr, BEq

/-- User role, compared against the string ADMIN in the middleware. -/
inductive Role
  | USER
  | ADMIN
deriving DecidableEq, Repr, BEq

/-- Room row: nightly price, total inventory, advertised available count. -/
structure Room where
  id : Nat
  hotelId : Nat
  price : Int
  totalRooms : Int
  availableRooms : Int
deriving DecidableEq, Repr

/-- Booking row.  checkinDate and checkoutDate are millisecond timestamps. -/
structure Booking where
  id : Nat
  userId : Nat
  roomId : Nat
  checkinDate : Int
  checkoutDate : Int
  totalPrice : Int
  guests : Nat
  status : BookingStatus
deriving DecidableEq, Repr

/-- Error taxonomy of the routes (the error field of each JSON error body). -/
inductive ApiError
  | missingParameters
  | invalidDates
  | roomNotFound
  | bookingNotFound
  | validationError
  | roomUnavailable
  | forbidden
  | alreadyCancelled
  | cannotCancel
  | internalError
deriving DecidableEq, Repr

/-- Milliseconds in one day: 1000 * 60 * 60 * 24. -/
def msPerDay : Int := 1000 * 60 * 60 * 24

/-- Number of nights: Math.ceil of (checkout - checkin) / msPerDay,
exact ceiling division expressed with floor division on integers. -/
def nights (checkin checkout : Int) : Int :=
  -((-(checkout - checkin)).fdiv msPerDay)

/-- Status filter of the conflict queries: status in [PENDING, CONFIRMED]. -/
def isActiveStatus (s : BookingStatus) : Bool :=
  s == .PENDING || s == .CONFIRMED

/-- The OR-of-three-ANDs date filter used verbatim by both the availability
route and the booking-creation route (all bounds inclusive, lte / gte):
(b.checkinDate <= checkin AND b.checkoutDate >= checkin) OR
(b.checkinDate <= checkout AND b.checkoutDate >= checkout) OR
(b.checkinDate >= checkin AND b.checkoutDate <= checkout). -/
def conflictsWithRange (checkin checkout : Int) (b : Booking) : Bool :=
  (decide (b.checkinDate ≤ checkin) && decide (b.checkoutDate ≥ checkin)) ||
  (decide (b.checkinDate ≤ checkout) && decide (b.checkoutDate ≥ checkout)) ||
  (decide (b.checkinDate ≥ checkin) && decide (b.checkoutDate ≤ checkout))

/-- Bookings of the room with active status whose dates pass the
conflict filter, as queried by both routes. -/
def conflictingBookings (store : List Booking) (roomId : Nat)
    (checkin checkout : Int) : List Booking :=
  store.filter fun b =>
    b.roomId == roomId && isActiveStatus b.status &&
    conflictsWithRange checkin checkout b

/-- Availability payload returned by GET /rooms/:id/availability. -/
structure Availability where
  roomId : Nat
  totalRooms : Int
  bookedRooms : Int
  availableRooms : Int
  isAvailable : Bool
deriving DecidableEq, Repr

/-- Room lookup by id (prisma.room.findUnique). -/
def findRoom (rooms : List Room) (id : Nat) : Option Room :=
  rooms.find? fun r => r.id == id

/-- Booking lookup by id (prisma.booking.findUnique). -/
def findBooking (store : List Booking) (id : Nat) : Option Booking :=
  store.find? fun b => b.id == id

/-- Update of one booking row: set the status of the booking with this id. -/
def setStatus (store : List Booking) (id : Nat) (s : BookingStatus) :
    List Booking :=
  store.map fun b => if b.id == id then { b with status := s } else b

/-- GET /rooms/:id/availability: reject checkin >= checkout, look the room
up, count conflicting bookings, report
availableRooms = max 0 (room.availableRooms - bookedRooms) and
isAvailable = (room.availableRooms - bookedRooms > 0). -/
def checkAvailability (rooms : List Room) (store : List Booking)
    (roomId : Nat) (checkin checkout : Int) : Except ApiError Availability :=
  if checkin ≥ checkout then .error .invalidDates
  else
    match findRoom rooms roomId with
    | none => .error .roomNotFound
    | some room =>
      let bookedRooms : Int :=
        (conflictingBookings store roomId checkin checkout).length
      let availableRooms := room.availableRooms - bookedRooms
      .ok { roomId := room.id
            totalRooms := room.totalRooms
            bookedRooms := bookedRooms
            availableRooms := max 0 availableRooms
            isAvailable := decide (availableRooms > 0) }

/-- validateBooking middleware: checkinDate not before today (midnight),
checkoutDate strictly after checkinDate, guests between 1 and 10. -/
def validateBookingInput (today checkin checkout : Int) (guests : Nat) :
    Bool :=
  decide (today ≤ checkin) && decide (checkin < checkout) &&
  decide (1 ≤ guests) && decide (guests ≤ 10)

/-- POST /bookings: after the validation middleware, compute nights, load
the room (404 if absent), count conflicting bookings, reject when
room.availableRooms - bookedRooms <= 0, otherwise persist a PENDING
booking priced room.price * nights.  Returns the created booking and the
new store. -/
def createBooking (today : Int) (rooms : List Room) (store : List Booking)
    (newId userId roomId : Nat) (checkin checkout : Int) (guests : Nat) :
    Except ApiError (Booking × List Booking) :=
  if validateBookingInput today checkin checkout guests then
    let n := nights checkin checkout
    match findRoom rooms roomId with
    | none => .error .roomNotFound
    | some room =>
      let bookedRooms : Int :=
        (conflictingBookings store roomId checkin checkout).length
      let availableRooms := room.availableRooms - bookedRooms
      if availableRooms ≤ 0 then .error .roomUnavailable
      else
        let booking : Booking :=
          { id := newId
            userId := userId
            roomId := roomId
            checkinDate := checkin
            checkoutDate := checkout
            totalPrice := room.price * n
            guests := guests
            status := .PENDING }
        .ok (booking, store ++ [booking])
  else .error .validationError

/-- PUT /bookings/:id/cancel: 404 if the booking is absent, 403 unless the
actor is the owner or an admin, then reject CANCELLED and COMPLETED
bookings, otherwise set the status to CANCELLED. -/
def cancelBooking (store : List Booking) (actorId : Nat) (actorRole : Role)
    (bookingId : Nat) : Except ApiError (Booking × List Booking) :=
  match findBooking store bookingId with
  | none => .error .bookingNotFound
  | some existing =>
    if actorRole ≠ .ADMIN ∧ existing.userId ≠ actorId then
      .error .forbidden
    else if existing.status = .CANCELLED then .error .alreadyCancelled
    else if existing.status = .COMPLETED then .error .cannotCancel
    else
      .ok ({ existing with status := .CANCELLED },
           setStatus store bookingId .CANCELLED)

/-- PUT /bookings/:id/status (admin): after the requireAdmin middleware and
the membership test of the status string (subsumed here by the enumeration
type), the update is unconditional: any of the four statuses is written
with no transition guard. -/
def updateBookingStatus (store : List Booking) (bookingId : Nat)
    (status : BookingStatus) : Except ApiError (Booking × List Booking) :=
  match findBooking store bookingId with
  | none => .error .bookingNotFound
  | some existing =>
    .ok ({ existing with status := status }, setStatus store bookingId status)

/-- The overlap test as the spec words it: half-open ranges intersect iff
a < d and c < b.  Stated for comparison with conflictsWithRange. -/
def specOverlaps (a b c d : Int) : Bool :=
  decide (a < d) && decide (c < b)

/-! Concrete rows used by counterexamples and witnesses. -/

/-- Millisecond UTC timestamp of 2024-01-10. -/
def d0110 : Int := 1704844800000

/-- Millisecond UTC timestamp of 2024-01-14. -/
def d0114 : Int := 1705190400000

/-- Millisecond UTC timestamp of 2024-01-15. -/
def d0115 : Int := 1705276800000

/-- Millisecond UTC timestamp of 2024-01-20. -/
def d0120 : Int := 1705708800000

/-- A stored PENDING booking for 2024-01-10 .. 2024-01-15, room 1, user 4. -/
def bkJan : Booking :=
  { id := 11, userId := 4, roomId := 1, checkinDate := d0110
    checkoutDate := d0115, totalPrice := 500, guests := 2
    status := .PENDING }

/-- A room with plenty of inventory, id 1. -/
def rmJan : Room :=
  { id := 1, hotelId := 1, price := 100, totalRooms := 5, availableRooms := 5 }

/-! Helper lemmas shared by several results. -/

/-- For a valid stored range and a valid requested range, the
OR-of-three-ANDs query filter is the closed-interval overlap test. -/
theorem conflicts_iff_closed (b : Booking) (checkin checkout : Int)
    (hb : b.checkinDate < b.checkoutDate) (h : checkin < checkout) :
    conflictsWithRange checkin checkout b = true ↔
      (b.checkinDate ≤ checkout ∧ checkin ≤ b.checkoutDate) := by
  simp only [conflictsWithRange, Bool.or_eq_true, Bool.and_eq_true,
    decide_eq_true_eq, ge_iff_le]
  omega

/-- Claim C1 (corrected), counterexample: the stored range
2024-01-10 .. 2024-01-15 is counted as conflicting with the requested
range 2024-01-15 .. 2024-01-20 by the query filter of both routes — the
availability endpoint reports it as one booked room — although the
half-open overlap test of the spec says the two ranges do not overlap. -/
theorem C1_counterexample :
    specOverlaps d0110 d0115 d0115 d0120 = false ∧
    conflictsWithRange d0115 d0120 bkJan = true ∧
    checkAvailability [rmJan] [bkJan] 1 d0115 d0120 =
      .ok { roomId := 1, totalRooms := 5, bookedRooms := 1
            availableRooms := 4, isAvailable := true } :=
  ⟨by decide, by decide, rfl⟩

/-- Claim C1 (amended): for every stored booking with a valid range and
every valid requested range, both the availability check and booking
creation count the booking as overlapping iff the CLOSED-interval test
b.checkinDate ≤ checkout ∧ checkin ≤ b.checkoutDate holds; a booking
checking out exactly on the requested check-in day IS counted. -/
theorem C1_closed_overlap (b : Booking) (checkin checkout : Int)
    (hb : b.checkinDate < b.checkoutDate) (h : checkin < checkout) :
    conflictsWithRange checkin checkout b = true ↔
      (b.checkinDate ≤ checkout ∧ checkin ≤ b.checkoutDate) :=
  conflicts_iff_closed b checkin checkout hb h

/-- Witness for C1: the amended test applied to the stored range
2024-01-10 .. 2024-01-15 and the requested range 2024-01-14 .. 2024-01-20,
which do overlap. -/
theorem C1_witness :
    bkJan.checkinDate < bkJan.checkoutDate ∧ d0114 < d0120 ∧
    (conflictsWithRange d0114 d0120 bkJan = true ↔
      (bkJan.checkinDate ≤ d0120 ∧ d0114 ≤ bkJan.checkoutDate)) :=
  ⟨by decide, by decide,
   C1_closed_overlap bkJan d0114 d0120 (by decide) (by decide)⟩

/-- Bool-level form of the closed-overlap equivalence. -/
theorem conflicts_eq_closed (b : Booking) (checkin checkout : Int)
    (hb : b.checkinDate < b.checkoutDate) (h : checkin < checkout) :
    conflictsWithRange checkin checkout b =
      (decide (b.checkinDate ≤ checkout) && decide (checkin ≤ b.checkoutDate)) := by
  rw [Bool.eq_iff_iff]
  simp only [conflictsWithRange, Bool.or_eq_true, Bool.and_eq_true,
    decide_eq_true_eq, ge_iff_le]
  omega

/-- Number of active bookings of the room whose stored range meets the
requested range under the closed-interval test; for stores of valid
bookings this equals the bookedRooms count of the routes. -/
def closedOverlapCount (store : List Booking) (roomId : Nat)
    (checkin checkout : Int) : Int :=
  store.countP fun b =>
    b.roomId == roomId && isActiveStatus b.status &&
    (decide (b.checkinDate ≤ checkout) && decide (checkin ≤ b.checkoutDate))

/-- On a store of valid bookings, the length of the conflict query result
is the closed-overlap count. -/
theorem conflictingBookings_length (store : List Booking) (roomId : Nat)
    (checkin checkout : Int) (h : checkin < checkout)
    (hstore : ∀ b ∈ store, b.checkinDate < b.checkoutDate) :
    ((conflictingBookings store roomId checkin checkout).length : Int) =
      closedOverlapCount store roomId checkin checkout := by
  unfold conflictingBookings closedOverlapCount
  rw [← List.countP_eq_length_filter]
  congr 1
  apply List.countP_congr
  intro b hbmem
  rw [conflicts_eq_closed b checkin checkout (hstore b hbmem) h]

/-- Room with advertised availability below its total inventory. -/
def rmC2 : Room :=
  { id := 2, hotelId := 1, price := 100, totalRooms := 5, availableRooms := 2 }

/-- Claim C2 (corrected), counterexample: with totalRooms = 5,
availableRooms = 2 and an empty booking store, the availability endpoint
reports availableCount 2, not max 0 (totalRooms - bookedCount) = 5: the
computation starts from the denormalized availableRooms column, not from
totalRooms. -/
theorem C2_counterexample :
    checkAvailability [rmC2] [] 2 d0110 d0115 =
      .ok { roomId := 2, totalRooms := 5, bookedRooms := 0
            availableRooms := 2, isAvailable := true } ∧
    ¬ ((2 : Int) = max 0 ((5 : Int) - 0)) :=
  ⟨rfl, by decide⟩

/-- Claim C2 (amended): for an existing room, a valid range and a store of
valid bookings, the availability result has bookedCount equal to the
number of active bookings meeting the range under the closed-interval
test, availableCount = max 0 (room.availableRooms - bookedCount) — based
on the denormalized availableRooms column rather than totalRooms — and
isAvailable true iff the unclamped difference is positive, which agrees
with availableCount > 0. -/
theorem C2_availability (rooms : List Room) (store : List Booking)
    (roomId : Nat) (checkin checkout : Int) (room : Room)
    (hroom : findRoom rooms roomId = some room) (h : checkin < checkout)
    (hstore : ∀ b ∈ store, b.checkinDate < b.checkoutDate) :
    checkAvailability rooms store roomId checkin checkout =
      .ok { roomId := room.id
            totalRooms := room.totalRooms
            bookedRooms := closedOverlapCount store roomId checkin checkout
            availableRooms := max 0 (room.availableRooms -
              closedOverlapCount store roomId checkin checkout)
            isAvailable := decide (room.availableRooms -
              closedOverlapCount store roomId checkin checkout > 0) } ∧
    (room.availableRooms - closedOverlapCount store roomId checkin checkout > 0 ↔
      max 0 (room.availableRooms -
        closedOverlapCount store roomId checkin checkout) > 0) := by
  have hcount := conflictingBookings_length store roomId checkin checkout h hstore
  constructor
  · unfold checkAvailability
    rw [if_neg (by omega), hroom]
    rw [hcount]
  · omega

/-- Witness for C2: the amended availability result on room 1 with the
January booking in store. -/
theorem C2_witness :
    findRoom [rmJan] 1 = some rmJan ∧ d0110 < d0115 ∧
    (checkAvailability [rmJan] [bkJan] 1 d0110 d0115 =
      .ok { roomId := rmJan.id
            totalRooms := rmJan.totalRooms
            bookedRooms := closedOverlapCount [bkJan] 1 d0110 d0115
            availableRooms := max 0 (rmJan.availableRooms -
              closedOverlapCount [bkJan] 1 d0110 d0115)
            isAvailable := decide (rmJan.availableRooms -
              closedOverlapCount [bkJan] 1 d0110 d0115 > 0) } ∧
    (rmJan.availableRooms - closedOverlapCount [bkJan] 1 d0110 d0115 > 0 ↔
      max 0 (rmJan.availableRooms -
        closedOverlapCount [bkJan] 1 d0110 d0115) > 0)) :=
  ⟨rfl, by decide,
   C2_availability [rmJan] [bkJan] 1 d0110 d0115 rmJan rfl (by decide)
     (by decide)⟩

/-- Validation passes for inputs within all the middleware bounds. -/
theorem validateBookingInput_true (today checkin checkout : Int)
    (guests : Nat) (htoday : today ≤ checkin) (h : checkin < checkout)
    (hg1 : 1 ≤ guests) (hg10 : guests ≤ 10) :
    validateBookingInput today checkin checkout guests = true := by
  unfold validateBookingInput
  simp only [Bool.and_eq_true, decide_eq_true_eq]
  omega

/-- Claim C3 (confirmed): for inputs passing the booking validation and an
existing room, booking creation fails with RoomUnavailable exactly when
the availability check on the same room, range and store reports
isAvailable = false. -/
theorem C3_unavailable_iff (today : Int) (rooms : List Room)
    (store : List Booking) (newId userId roomId : Nat)
    (checkin checkout : Int) (guests : Nat) (room : Room)
    (hroom : findRoom rooms roomId = some room)
    (htoday : today ≤ checkin) (h : checkin < checkout)
    (hg1 : 1 ≤ guests) (hg10 : guests ≤ 10) :
    (createBooking today rooms store newId userId roomId checkin checkout
        guests = .error .roomUnavailable) ↔
      (∃ a, checkAvailability rooms store roomId checkin checkout = .ok a ∧
        a.isAvailable = false) := by
  have hv := validateBookingInput_true today checkin checkout guests
    htoday h hg1 hg10
  unfold createBooking checkAvailability
  rw [if_pos hv, if_neg (show ¬ checkin ≥ checkout by omega), hroom]
  dsimp only
  by_cases hle : room.availableRooms -
      ((conflictingBookings store roomId checkin checkout).length : Int) ≤ 0
  · rw [if_pos hle]
    constructor
    · intro _
      refine ⟨_, rfl, ?_⟩
      simp only [decide_eq_false_iff_not]
      omega
    · intro _
      rfl
  · rw [if_neg hle]
    constructor
    · intro hcontra
      exact absurd hcontra (by simp)
    · rintro ⟨a, ha, hfalse⟩
      cases ha
      simp only [decide_eq_false_iff_not] at hfalse
      omega

/-- Witness for C3: the equivalence applied to room 1 with the January
booking in store and an overlapping request; inventory remains, so both
sides of the equivalence are false. -/
theorem C3_witness :
    findRoom [rmJan] 1 = some rmJan ∧
    ((createBooking 0 [rmJan] [bkJan] 99 4 1 d0110 d0115 2 =
        .error .roomUnavailable) ↔
      (∃ a, checkAvailability [rmJan] [bkJan] 1 d0110 d0115 = .ok a ∧
        a.isAvailable = false)) :=
  ⟨rfl, C3_unavailable_iff 0 [rmJan] [bkJan] 99 4 1 d0110 d0115 2 rmJan rfl
    (by decide) (by decide) (by decide) (by decide)⟩

/-- Room whose advertised availableRooms exceeds its totalRooms. -/
def rmC4 : Room :=
  { id := 3, hotelId := 1, price := 100, totalRooms := 1, availableRooms := 2 }

/-- CONFIRMED booking of room 3 covering 2024-01-10 .. 2024-01-20. -/
def bkC4 : Booking :=
  { id := 21, userId := 6, roomId := 3, checkinDate := d0110
    checkoutDate := d0120, totalPrice := 1000, guests := 2
    status := .CONFIRMED }

/-- Claim C4 (corrected), counterexample: a room with totalRooms = 1 and a
CONFIRMED booking fully covering the requested range, but with
availableRooms = 2 (nothing enforces availableRooms ≤ totalRooms):
booking creation succeeds rather than failing with RoomUnavailable,
because availability subtracts the conflict count from the availableRooms
column, not from totalRooms — so availableRooms is not irrelevant. -/
theorem C4_counterexample :
    rmC4.totalRooms = 1 ∧ bkC4.status = .CONFIRMED ∧
    bkC4.checkinDate ≤ d0114 ∧ d0115 ≤ bkC4.checkoutDate ∧
    createBooking d0110 [rmC4] [bkC4] 99 7 3 d0114 d0115 2 ≠
      .error .roomUnavailable ∧
    (createBooking d0110 [rmC4] [bkC4] 99 7 3 d0114 d0115 2).toOption.isSome
      = true :=
  ⟨rfl, rfl, by decide, by decide, fun hcon => Except.noConfusion hcon, rfl⟩

/-- Claim C4 (amended): under the data-model invariant
availableRooms ≤ totalRooms, a room with totalRooms = 1 and one CONFIRMED
booking fully covering the requested range makes booking creation fail
with RoomUnavailable. -/
theorem C4_unavailable (today : Int) (rooms : List Room)
    (store : List Booking) (newId userId roomId : Nat)
    (checkin checkout : Int) (guests : Nat) (room : Room) (b : Booking)
    (hroom : findRoom rooms roomId = some room)
    (htot : room.totalRooms = 1)
    (hinv : room.availableRooms ≤ room.totalRooms)
    (hmem : b ∈ store) (hbroom : b.roomId = roomId)
    (hbstat : b.status = .CONFIRMED)
    (hcov1 : b.checkinDate ≤ checkin) (hcov2 : checkout ≤ b.checkoutDate)
    (htoday : today ≤ checkin) (h : checkin < checkout)
    (hg1 : 1 ≤ guests) (hg10 : guests ≤ 10) :
    createBooking today rooms store newId userId roomId checkin checkout
      guests = .error .roomUnavailable := by
  have hv := validateBookingInput_true today checkin checkout guests
    htoday h hg1 hg10
  have hconf : b ∈ conflictingBookings store roomId checkin checkout := by
    unfold conflictingBookings
    rw [List.mem_filter]
    refine ⟨hmem, ?_⟩
    simp only [Bool.and_eq_true, beq_iff_eq, decide_eq_true_eq]
    refine ⟨⟨hbroom, ?_⟩, ?_⟩
    · unfold isActiveStatus
      rw [hbstat]
      rfl
    · unfold conflictsWithRange
      simp only [Bool.or_eq_true, Bool.and_eq_true, decide_eq_true_eq,
        ge_iff_le]
      exact Or.inl (Or.inl ⟨hcov1, by omega⟩)
  have hlen : 0 < (conflictingBookings store roomId checkin checkout).length :=
    List.length_pos_of_mem hconf
  unfold createBooking
  rw [if_pos hv, hroom]
  dsimp only
  rw [if_pos (show room.availableRooms -
    ((conflictingBookings store roomId checkin checkout).length : Int) ≤ 0
    by omega)]

/-- Room with one unit total and one advertised. -/
def rmC4b : Room :=
  { id := 4, hotelId := 1, price := 100, totalRooms := 1, availableRooms := 1 }

/-- CONFIRMED booking of room 4 covering 2024-01-10 .. 2024-01-20. -/
def bkC4b : Booking :=
  { id := 22, userId := 6, roomId := 4, checkinDate := d0110
    checkoutDate := d0120, totalPrice := 1000, guests := 2
    status := .CONFIRMED }

/-- Witness for C4: the amended statement on a one-unit room satisfying
the invariant, with a fully covering CONFIRMED booking. -/
theorem C4_witness :
    createBooking d0110 [rmC4b] [bkC4b] 99 7 4 d0114 d0115 2 =
      .error .roomUnavailable :=
  C4_unavailable d0110 [rmC4b] [bkC4b] 99 7 4 d0114 d0115 2 rmC4b bkC4b rfl
    rfl (by decide) (by simp) rfl rfl (by decide) (by decide) (by decide)
    (by decide) (by decide) (by decide)

/-- Claim C5 (confirmed): every successful booking creation persists a
booking priced room.price * nights — nights being the ceiling of the
millisecond difference divided by one day — with status PENDING, appended
to the store. -/
theorem C5_price (today : Int) (rooms : List Room) (store : List Booking)
    (newId userId roomId : Nat) (checkin checkout : Int) (guests : Nat)
    (room : Room) (bk : Booking) (store2 : List Booking)
    (hroom : findRoom rooms roomId = some room)
    (hok : createBooking today rooms store newId userId roomId checkin
      checkout guests = .ok (bk, store2)) :
    bk.totalPrice = room.price * nights checkin checkout ∧
    bk.status = .PENDING ∧ store2 = store ++ [bk] := by
  unfold createBooking at hok
  by_cases hv : validateBookingInput today checkin checkout guests = true
  · rw [if_pos hv, hroom] at hok
    dsimp only at hok
    by_cases hle : room.availableRooms -
        ((conflictingBookings store roomId checkin checkout).length : Int) ≤ 0
    · rw [if_pos hle] at hok
      cases hok
    · rw [if_neg hle] at hok
      simp only [Except.ok.injEq, Prod.mk.injEq] at hok
      obtain ⟨hbk, hs⟩ := hok
      subst hbk
      subst hs
      exact ⟨rfl, rfl, rfl⟩
  · rw [if_neg hv] at hok
    cases hok

/-- Room priced 2000 per night. -/
def rm5 : Room :=
  { id := 5, hotelId := 1, price := 2000, totalRooms := 3
    availableRooms := 3 }

/-- The booking produced by a 3-night stay in rm5 starting at time 0. -/
def bk5 : Booking :=
  { id := 31, userId := 4, roomId := 5, checkinDate := 0
    checkoutDate := 3 * 86400000, totalPrice := 6000, guests := 2
    status := .PENDING }

/-- Witness for C5: a 3-night stay in a room priced 2000 per night is
persisted PENDING with totalPrice 6000. -/
theorem C5_witness :
    createBooking 0 [rm5] [] 31 4 5 0 (3 * 86400000) 2 = .ok (bk5, [bk5]) ∧
    (bk5.totalPrice = rm5.price * nights 0 (3 * 86400000) ∧
     bk5.status = .PENDING ∧ [bk5] = [] ++ [bk5]) ∧
    bk5.totalPrice = 6000 :=
  ⟨rfl, C5_price 0 [rm5] [] 31 4 5 0 (3 * 86400000) 2 rm5 bk5 [bk5] rfl rfl,
   rfl⟩

/-- Claim C6 (confirmed): when checkoutDate ≤ checkinDate the availability
endpoint fails with the invalid-dates error and booking creation is
rejected by the validation middleware; both return errors, so no booking
is created or modified. -/
theorem C6_invalid_range (today : Int) (rooms : List Room)
    (store : List Booking) (newId userId roomId : Nat)
    (checkin checkout : Int) (guests : Nat) (h : checkout ≤ checkin) :
    checkAvailability rooms store roomId checkin checkout =
      .error .invalidDates ∧
    createBooking today rooms store newId userId roomId checkin checkout
      guests = .error .validationError := by
  constructor
  · unfold checkAvailability
    rw [if_pos (show checkin ≥ checkout from h)]
  · have hv : ¬ (validateBookingInput today checkin checkout guests = true)
        := by
      unfold validateBookingInput
      simp only [Bool.and_eq_true, decide_eq_true_eq]
      omega
    unfold createBooking
    rw [if_neg hv]

/-- Witness for C6: requesting checkin 2024-01-15 with checkout 2024-01-10
fails on both endpoints. -/
theorem C6_witness :
    checkAvailability [rmJan] [bkJan] 1 d0115 d0110 =
      .error .invalidDates ∧
    createBooking 0 [rmJan] [bkJan] 99 4 1 d0115 d0110 2 =
      .error .validationError :=
  C6_invalid_range 0 [rmJan] [bkJan] 99 4 1 d0115 d0110 2 (by decide)

/-- Claim C7 (confirmed): cancellation of an existing booking fails with
Forbidden for an actor who is neither the owner nor an admin, fails with
AlreadyCancelled on a CANCELLED booking and with CannotCancel on a
COMPLETED one, and otherwise (PENDING or CONFIRMED) sets the status to
CANCELLED in the store; every failure returns an error, so the store is
left as it was. -/
theorem C7_cancel (store : List Booking) (actorId : Nat) (actorRole : Role)
    (bookingId : Nat) (b : Booking)
    (hfind : findBooking store bookingId = some b) :
    ((actorRole ≠ .ADMIN ∧ b.userId ≠ actorId) →
      cancelBooking store actorId actorRole bookingId =
        .error .forbidden) ∧
    ((actorRole = .ADMIN ∨ b.userId = actorId) → b.status = .CANCELLED →
      cancelBooking store actorId actorRole bookingId =
        .error .alreadyCancelled) ∧
    ((actorRole = .ADMIN ∨ b.userId = actorId) → b.status = .COMPLETED →
      cancelBooking store actorId actorRole bookingId =
        .error .cannotCancel) ∧
    ((actorRole = .ADMIN ∨ b.userId = actorId) →
      (b.status = .PENDING ∨ b.status = .CONFIRMED) →
      cancelBooking store actorId actorRole bookingId =
        .ok ({ b with status := .CANCELLED },
             setStatus store bookingId .CANCELLED)) := by
  unfold cancelBooking
  rw [hfind]
  dsimp only
  refine ⟨?_, ?_, ?_, ?_⟩
  · intro hforb
    rw [if_pos hforb]
  · intro hauth hcanc
    rw [if_neg (by tauto), if_pos hcanc]
  · intro hauth hcomp
    rw [if_neg (by tauto), if_neg (by simp [hcomp]), if_pos hcomp]
  · intro hauth hact
    rcases hact with hp | hc
    · rw [if_neg (by tauto), if_neg (by simp [hp]), if_neg (by simp [hp])]
    · rw [if_neg (by tauto), if_neg (by simp [hc]), if_neg (by simp [hc])]

/-- PENDING booking of user 4 used by the cancellation witness. -/
def bk7 : Booking :=
  { id := 41, userId := 4, roomId := 1, checkinDate := d0110
    checkoutDate := d0115, totalPrice := 500, guests := 2
    status := .PENDING }

/-- Witness for C7: for a PENDING booking of user 4, the four clauses
instantiated with the owner as actor, followed by the spec's scenario:
cancelling once succeeds and a second attempt fails AlreadyCancelled. -/
theorem C7_witness :
    findBooking [bk7] 41 = some bk7 ∧
    (((Role.USER ≠ Role.ADMIN ∧ bk7.userId ≠ 4) →
       cancelBooking [bk7] 4 .USER 41 = .error .forbidden) ∧
     ((Role.USER = Role.ADMIN ∨ bk7.userId = 4) → bk7.status = .CANCELLED →
       cancelBooking [bk7] 4 .USER 41 = .error .alreadyCancelled) ∧
     ((Role.USER = Role.ADMIN ∨ bk7.userId = 4) → bk7.status = .COMPLETED →
       cancelBooking [bk7] 4 .USER 41 = .error .cannotCancel) ∧
     ((Role.USER = Role.ADMIN ∨ bk7.userId = 4) →
       (bk7.status = .PENDING ∨ bk7.status = .CONFIRMED) →
       cancelBooking [bk7] 4 .USER 41 =
         .ok ({ bk7 with status := .CANCELLED },
              setStatus [bk7] 41 .CANCELLED))) ∧
    cancelBooking (setStatus [bk7] 41 .CANCELLED) 4 .USER 41 =
      .error .alreadyCancelled :=
  ⟨rfl, C7_cancel [bk7] 4 .USER 41 bk7 rfl,
   (C7_cancel (setStatus [bk7] 41 .CANCELLED) 4 .USER 41
     { bk7 with status := .CANCELLED } rfl).2.1 (Or.inr rfl) rfl⟩

/-- CANCELLED booking used by the C8 counterexample. -/
def bk8 : Booking :=
  { id := 51, userId := 4, roomId := 1, checkinDate := d0110
    checkoutDate := d0115, totalPrice := 500, guests := 2
    status := .CANCELLED }

/-- Claim C8 (corrected), counterexample: the administrative status update
carries no transition guard and moves a CANCELLED booking straight back
to CONFIRMED, so CANCELLED is not terminal across all operations. -/
theorem C8_counterexample :
    bk8.status = .CANCELLED ∧
    updateBookingStatus [bk8] 51 .CONFIRMED =
      .ok ({ bk8 with status := .CONFIRMED },
           [{ bk8 with status := .CONFIRMED }]) :=
  ⟨rfl, rfl⟩

/-- Claim C8 (amended): CANCELLED and COMPLETED are terminal only with
respect to cancellation — cancelBooking fails on them with one of its
errors, changing nothing — while the administrative status update is
unguarded and sets any requested status on such a booking. -/
theorem C8_terminal_only_for_cancel (store : List Booking) (actorId : Nat)
    (actorRole : Role) (bookingId : Nat) (b : Booking) (s : BookingStatus)
    (hfind : findBooking store bookingId = some b)
    (hterm : b.status = .CANCELLED ∨ b.status = .COMPLETED) :
    (cancelBooking store actorId actorRole bookingId = .error .forbidden ∨
     cancelBooking store actorId actorRole bookingId =
       .error .alreadyCancelled ∨
     cancelBooking store actorId actorRole bookingId =
       .error .cannotCancel) ∧
    updateBookingStatus store bookingId s =
      .ok ({ b with status := s }, setStatus store bookingId s) := by
  constructor
  · unfold cancelBooking
    rw [hfind]
    dsimp only
    by_cases hforb : actorRole ≠ .ADMIN ∧ b.userId ≠ actorId
    · exact Or.inl (by rw [if_pos hforb])
    · rcases hterm with hc | hc
      · exact Or.inr (Or.inl (by rw [if_neg hforb, if_pos hc]))
      · refine Or.inr (Or.inr ?_)
        rw [if_neg hforb, if_neg (by simp [hc]), if_pos hc]
  · unfold updateBookingStatus
    rw [hfind]

/-- Witness for C8: on the CANCELLED booking bk8, cancellation fails while
the admin status update sets CONFIRMED. -/
theorem C8_witness :
    findBooking [bk8] 51 = some bk8 ∧ bk8.status = .CANCELLED ∧
    ((cancelBooking [bk8] 4 .USER 51 = .error .forbidden ∨
      cancelBooking [bk8] 4 .USER 51 = .error .alreadyCancelled ∨
      cancelBooking [bk8] 4 .USER 51 = .error .cannotCancel) ∧
     updateBookingStatus [bk8] 51 .CONFIRMED =
       .ok ({ bk8 with status := .CONFIRMED },
            setStatus [bk8] 51 .CONFIRMED)) :=
  ⟨rfl, rfl,
   C8_terminal_only_for_cancel [bk8] 4 .USER 51 bk8 .CONFIRMED rfl
     (Or.inl rfl)⟩

/-- Claim C9 (confirmed): a booking request whose check-in lies strictly
before today (midnight) is rejected by the validation middleware with a
validation error, whatever the other arguments; creation returns an error
and no booking is persisted. -/
theorem C9_past_checkin (today : Int) (rooms : List Room)
    (store : List Booking) (newId userId roomId : Nat)
    (checkin checkout : Int) (guests : Nat) (hpast : checkin < today) :
    createBooking today rooms store newId userId roomId checkin checkout
      guests = .error .validationError := by
  have hv : ¬ (validateBookingInput today checkin checkout guests = true)
      := by
    unfold validateBookingInput
    simp only [Bool.and_eq_true, decide_eq_true_eq]
    omega
  unfold createBooking
  rw [if_neg hv]

/-- Witness for C9: with today at 2024-01-15, a booking starting
2024-01-10 is rejected even though its range is valid. -/
theorem C9_witness :
    createBooking d0115 [rmJan] [] 99 4 1 d0110 d0120 2 =
      .error .validationError :=
  C9_past_checkin d0115 [rmJan] [] 99 4 1 d0110 d0120 2 (by decide)

/-- Claim C10 (confirmed): cancellation checks existence before
authorization and authorization before status: a missing booking yields
the not-found error for every actor, and an existing booking of another
user yields Forbidden for a non-admin actor regardless of the status of
the booking, so status errors are never revealed to unauthorized
actors. -/
theorem C10_check_order (store : List Booking) (actorId : Nat)
    (actorRole : Role) (bookingId : Nat) :
    (findBooking store bookingId = none →
      cancelBooking store actorId actorRole bookingId =
        .error .bookingNotFound) ∧
    (∀ b, findBooking store bookingId = some b → actorRole ≠ .ADMIN →
      b.userId ≠ actorId →
      cancelBooking store actorId actorRole bookingId =
        .error .forbidden) := by
  constructor
  · intro hnone
    unfold cancelBooking
    rw [hnone]
  · intro b hfind hrole huser
    unfold cancelBooking
    rw [hfind]
    dsimp only
    rw [if_pos ⟨hrole, huser⟩]

/-- CANCELLED booking of user 6, targeted by an unauthorized actor. -/
def bk10 : Booking :=
  { id := 61, userId := 6, roomId := 1, checkinDate := d0110
    checkoutDate := d0115, totalPrice := 500, guests := 2
    status := .CANCELLED }

/-- Witness for C10: an empty store yields the not-found error, and a
CANCELLED booking of another user yields Forbidden — not
AlreadyCancelled — for a non-admin actor. -/
theorem C10_witness :
    cancelBooking [] 5 .USER 61 = .error .bookingNotFound ∧
    cancelBooking [bk10] 5 .USER 61 = .error .forbidden :=
  ⟨(C10_check_order [] 5 .USER 61).1 rfl,
   (C10_check_order [bk10] 5 .USER 61).2 bk10 rfl (by decide) (by decide)⟩

end HotelBooking
